import Mathlib

/-!
Shallow embedding of the rusty-planets physics core and proofs about its
specification. The embedding covers:

* `src/bodies.rs` (namespace `Bodies`): the `Body`/`Star` entities, the
  gravitational `tick`, the stable-orbit constructor and the world builder
  `World.new_from_json`;
* `src/planet.rs` (namespace `Planets`): the earlier `Planet`/`Star` variant
  with `G = 5.0`, randomly drawn planet ids and a hard-coded star id;
* `src/main.rs` (namespace `Main`): the two-phase update loop (compute all
  frames against the frozen world, then commit them all) and the `min_step`
  clamp of the driver-supplied time delta.

`f64` arithmetic is idealised as real arithmetic. The two genuinely
non-real aspects are modelled explicitly: the `thread_rng` draws become
explicit parameters, and the `NaN`/`Inf` behaviour of `f64` at zero
separation is tracked by an `Option`-valued variant of the force loop
(`Bodies.Body.dvChecked`) that returns `none` exactly where the floating
point code produces non-finite values.
-/

noncomputable section

/-- Two-dimensional vectors and points (`nalgebra::Vector2<f64>` /
`Point2<f64>`), idealised over the reals. -/
abbrev Vec2 : Type := ℝ × ℝ

/-- An RGBA colour (`[f32; 4]`); carried only because the Rust structs carry
it, it plays no role in the physics. -/
abbrev Color : Type := ℝ × ℝ × ℝ × ℝ

/-- Squared euclidean norm (`Vector2::norm_squared`). -/
def normSq (v : Vec2) : ℝ := v.1 ^ 2 + v.2 ^ 2

/-- Euclidean norm (`Vector2::norm`). -/
def vnorm (v : Vec2) : ℝ := Real.sqrt (normSq v)

/-- Unit vector in the direction of `v` (`Vector2::normalize`, which divides
the vector by its norm). -/
def vnormalize (v : Vec2) : Vec2 := (1 / vnorm v) • v

/-- Application of `nalgebra::Rotation2::new θ` to a vector: rotation by the
angle `θ`. -/
def rot2 (θ : ℝ) (v : Vec2) : Vec2 :=
  (Real.cos θ * v.1 - Real.sin θ * v.2, Real.sin θ * v.1 + Real.cos θ * v.2)

namespace Bodies

/-- The pending next-step state of one body (`bodies.rs` `PhysicsFrame`). -/
structure PhysicsFrame where
  velocity : Vec2
  position : Vec2

/-- The read-only snapshot a body exposes (`bodies.rs` `PhysicsData`). -/
structure PhysicsData where
  velocity : Vec2
  position : Vec2
  mass : ℝ
  size : ℝ

/-- The movable, gravity-driven body of `bodies.rs` (`struct Body`). -/
structure Body where
  velocity : Vec2
  position : Vec2
  color : Color
  size : ℝ
  mass : ℝ
  parent_id : ℕ
  name : String
  id : ℕ

/-- The anchored body of `bodies.rs` (`struct Star`). -/
structure Star where
  id : ℕ
  name : String
  velocity : Vec2
  position : Vec2
  color : Color
  mass : ℝ
  size : ℝ

/-- The parameter record one body is built from (`bodies.rs` `BodyParams`).
It is recursive through the optional `children` list, hence an inductive. -/
inductive BodyParams : Type where
  | mk : (id : ℕ) → (parent_id : ℕ) → (color : Color) → (diameter : ℝ) →
      (mass : ℝ) → (height : ℝ) → (name : String) →
      (children : Option (List BodyParams)) → BodyParams

def BodyParams.id : BodyParams → ℕ
  | .mk i _ _ _ _ _ _ _ => i

def BodyParams.parent_id : BodyParams → ℕ
  | .mk _ p _ _ _ _ _ _ => p

def BodyParams.color : BodyParams → Color
  | .mk _ _ c _ _ _ _ _ => c

def BodyParams.diameter : BodyParams → ℝ
  | .mk _ _ _ d _ _ _ _ => d

def BodyParams.mass : BodyParams → ℝ
  | .mk _ _ _ _ m _ _ _ => m

def BodyParams.height : BodyParams → ℝ
  | .mk _ _ _ _ _ h _ _ => h

def BodyParams.name : BodyParams → String
  | .mk _ _ _ _ _ _ n _ => n

def BodyParams.children : BodyParams → Option (List BodyParams)
  | .mk _ _ _ _ _ _ _ cs => cs

/-- Replace the `id` field of a parameter record (`p.id = …` in the source). -/
def BodyParams.withId : BodyParams → ℕ → BodyParams
  | .mk _ p c d m h n cs, i => .mk i p c d m h n cs

/-- Replace the `parent_id` field (`c.parent_id = …` in the source). -/
def BodyParams.withParent : BodyParams → ℕ → BodyParams
  | .mk i _ c d m h n cs, p => .mk i p c d m h n cs

/-- Replace the `children` field (`p.children = None` in the source). -/
def BodyParams.withChildren : BodyParams → Option (List BodyParams) → BodyParams
  | .mk i p c d m h n _, cs => .mk i p c d m h n cs

/-- The world configuration (`bodies.rs` `WorldParams`). -/
structure WorldParams where
  stars : List BodyParams
  planets : List BodyParams

/-- The gravitational constant of `bodies.rs`: `const G: f64 = 6.67430e-11`. -/
def G : ℝ := 6.6743e-11

/-- Horizontal extent of the simulated region (`const X_SIZE`). -/
def X_SIZE : ℝ := 5000000000.0

/-- Vertical extent (`const Y_SIZE: f64 = X_SIZE`). -/
def Y_SIZE : ℝ := X_SIZE

/-- A world entity: the trait object `Box<dyn Entity>` of `bodies.rs`,
closed over the two concrete implementors. -/
inductive Entity : Type where
  | star : Star → Entity
  | body : Body → Entity

/-- `Entity::id` as implemented by the two variants. -/
def Entity.id : Entity → ℕ
  | .star s => s.id
  | .body b => b.id

/-- `Body::physics_data`. -/
def Body.physics_data (b : Body) : PhysicsData :=
  { velocity := b.velocity, position := b.position, mass := b.mass, size := b.size }

/-- `Star::physics_data`. -/
def Star.physics_data (s : Star) : PhysicsData :=
  { velocity := s.velocity, position := s.position, mass := s.mass, size := s.size }

/-- `PhysicsBody::physics_data` dispatched over the entity variants. -/
def Entity.physics_data : Entity → PhysicsData
  | .star s => s.physics_data
  | .body b => b.physics_data

/-- The force-accumulation loop of `Body::tick`: starting from `dv = 0`,
every entity `e` of the view with `e.id() == self.id()` is skipped
(`continue`), and every other contributes
`G * (e.mass + self.mass) / r_sq * vec.normalize()` with
`vec = e.position - self.position` and `r_sq = vec.norm_squared()`. -/
def Body.dv (self : Body) (others : List Entity) : Vec2 :=
  others.foldl
    (fun dv e =>
      if e.id = self.id then dv
      else
        dv + (G * (e.physics_data.mass + self.mass) /
            normSq (e.physics_data.position - self.position)) •
          vnormalize (e.physics_data.position - self.position))
    0

/-- `Body::tick`: the returned frame advances the velocity by `dv * dt` and
the position by `self.velocity * dt` (the pre-update velocity). -/
def Body.tick (self : Body) (others : List Entity) (dt : ℝ) : PhysicsFrame :=
  { velocity := self.velocity + dt • Body.dv self others,
    position := self.position + dt • self.velocity }

/-- `Body::set`: commit a frame into the body's position and velocity. -/
def Body.set (self : Body) (f : PhysicsFrame) : Body :=
  { self with position := f.position, velocity := f.velocity }

/-- `Star::tick`: "Let's pretend the star doesn't move" — the frame is the
star's own position with a zero velocity, whatever the view and `dt`. -/
def Star.tick (self : Star) (_others : List Entity) (_dt : ℝ) : PhysicsFrame :=
  { velocity := (0, 0), position := self.position }

/-- `Star::set` is a no-op: a star ignores every committed frame. -/
def Star.set (self : Star) (_f : PhysicsFrame) : Star := self

/-- `PhysicsBody::tick` dispatched over the entity variants. -/
def Entity.tick (e : Entity) (others : List Entity) (dt : ℝ) : PhysicsFrame :=
  match e with
  | .star s => s.tick others dt
  | .body b => b.tick others dt

/-- `PhysicsBody::set` dispatched over the entity variants. -/
def Entity.set (e : Entity) (f : PhysicsFrame) : Entity :=
  match e with
  | .star s => .star (s.set f)
  | .body b => .body (b.set f)

/-- `Body::new_stable_orbit` of `bodies.rs`. The orbital phase `period` is
drawn from `thread_rng().gen_range(0.0, 2.0)` in the source; the draw is an
explicit parameter here. -/
def Body.new_stable_orbit (parent_physics : PhysicsData) (params : BodyParams)
    (period : ℝ) : Body :=
  let o_pos := parent_physics.position
  let orbit_vec := rot2 (Real.pi * period) (params.height, 0)
  let position := o_pos + orbit_vec
  let mu := G * (parent_physics.mass + params.mass)
  let f_vec := o_pos - position
  let velocity :=
    Real.sqrt (mu / vnorm f_vec) • rot2 (-(Real.pi / 2)) (vnormalize f_vec)
  let velocity := parent_physics.velocity + velocity
  { id := params.id, parent_id := params.parent_id, velocity := velocity,
    position := position, color := params.color, size := params.diameter,
    mass := params.mass, name := params.name }

/-- `Star::new_from_params`: a star sits at the centre of the simulated
region with zero velocity; the params supply id, name, colour, mass, size. -/
def Star.new_from_params (star : BodyParams) : Star :=
  { id := star.id, name := star.name,
    position := (X_SIZE / 2, Y_SIZE / 2), velocity := (0, 0),
    color := star.color, mass := star.mass, size := star.diameter }

/-- `World::new_from_json` of `bodies.rs`, with the JSON already decoded into
a `WorldParams` and the `thread_rng` phase draws supplied as `rng k j`
(`k` the index of the top-level planet, `j = 0` for the planet itself and
`j+1` for its `j`-th child). The `stars.get(0).unwrap()` panic on an empty
star list becomes `none`.

The Rust source declares `let mut offset = stars.len()` and increments it
with `offset += 1` inside the inner `move` closure. `usize` is `Copy`, so
the `move` closure captures its own copy of `offset` and the increments
never reach the outer variable: every top-level planet reads
`offset = stars.len()`, and each planet's `j`-th child reads
`stars.len() + j + 1` from that planet's fresh copy. The model reproduces
exactly this behaviour. -/
def World.new_from_json (wp : WorldParams) (rng : ℕ → ℕ → ℝ) :
    Option (List Entity) :=
  let stars := wp.stars.enum.map
    (fun ip => Entity.star (Star.new_from_params (ip.2.withId ip.1)))
  match stars.head? with
  | none => none
  | some star =>
    let offset := wp.stars.length
    let planets := wp.planets.enum.flatMap (fun kp =>
      let p := kp.2
      let parent_id := offset
      let children := p.children.getD []
      let this :=
        Body.new_stable_orbit star.physics_data ((p.withId offset).withChildren none)
          (rng kp.1 0)
      let parent_motion := this.physics_data
      (children.enum.map (fun jc =>
          Entity.body (Body.new_stable_orbit parent_motion
            ((jc.2.withId (offset + jc.1 + 1)).withParent parent_id)
            (rng kp.1 (jc.1 + 1)))))
        ++ [Entity.body this])
    some (stars ++ planets)

/-- The force-accumulation loop of `Body::tick` with the `f64` degeneracies
tracked: where the floating-point code normalises the zero vector
(`0.0/0.0 = NaN`) and divides by `r_sq = 0.0` (`Inf`, then `Inf * NaN`),
this model returns `none`. Everywhere else it agrees with `Body.dv`. -/
def Body.dvChecked (self : Body) : List Entity → Vec2 → Option Vec2
  | [], dv => some dv
  | e :: rest, dv =>
    if e.id = self.id then Body.dvChecked self rest dv
    else
      if e.physics_data.position - self.position = 0 then none
      else
        Body.dvChecked self rest
          (dv + (G * (e.physics_data.mass + self.mass) /
              normSq (e.physics_data.position - self.position)) •
            vnormalize (e.physics_data.position - self.position))

/-- `Body::tick` with the `f64` degeneracies tracked: `none` whenever the
frame the floating-point code builds would carry `NaN` components. -/
def Body.tickChecked (self : Body) (others : List Entity) (dt : ℝ) :
    Option PhysicsFrame :=
  (Body.dvChecked self others 0).map (fun dv =>
    { velocity := self.velocity + dt • dv,
      position := self.position + dt • self.velocity })

end Bodies

namespace Planets

/-- The motion snapshot of `planet.rs` (`struct Motion`); `PhysicsFrame` is a
type alias for it in the source (`pub type PhysicsFrame = Motion`). -/
structure Motion where
  velocity : Vec2
  position : Vec2

/-- `pub type PhysicsFrame = Motion`. -/
abbrev PhysicsFrame : Type := Motion

/-- The movable body of `planet.rs` (`struct Planet`). Its `id` is drawn from
`thread_rng().gen()` at construction. -/
structure Planet where
  velocity : Vec2
  position : Vec2
  color : Color
  size : ℝ
  mass : ℝ
  id : ℕ

/-- The anchored body of `planet.rs` (`struct Star`): no velocity field and
no id field at all. -/
structure Star where
  position : Vec2
  color : Color
  mass : ℝ
  size : ℝ

/-- The gravitational constant of `planet.rs`: `const G: f64 = 5.0` (the
physical value is commented out in that file). -/
def G : ℝ := 5.0

/-- The trait object `Box<dyn Entity>` of `planet.rs`, closed over its two
implementors. -/
inductive Entity : Type where
  | planet : Planet → Entity
  | star : Star → Entity

/-- `Entity::id` of `planet.rs`: a planet reports its stored id, while
`impl Entity for Star` returns the hard-coded constant `1`. -/
def Entity.id : Entity → ℕ
  | .planet p => p.id
  | .star _ => 1

/-- `PhysicsBody::motion` of `planet.rs`: a star reports a zero velocity. -/
def Entity.motion : Entity → Motion
  | .planet p => { velocity := p.velocity, position := p.position }
  | .star s => { velocity := (0, 0), position := s.position }

/-- `PhysicsBody::mass` of `planet.rs`. -/
def Entity.mass : Entity → ℝ
  | .planet p => p.mass
  | .star s => s.mass

/-- `Planet::new_stable_orbit` of `planet.rs`. The `period` (orbital phase)
is an explicit caller-supplied argument in this variant, but the planet's
`id` is drawn from `thread_rng().gen()`; the draw is the explicit `rngId`
parameter here. Note the offset `rot2 (π * 2 * period) (height, height/2)`:
the child is placed at distance `height * sqrt 5 / 2` from the parent, yet
the speed below is computed from `height` itself. -/
def Planet.new_stable_orbit (other : Entity) (height period mass size : ℝ)
    (color : Color) (rngId : ℕ) : Planet :=
  let o_pos := (Entity.motion other).position
  let orbit_vec := rot2 (Real.pi * 2 * period) (height, height / 2)
  let pos := o_pos + orbit_vec
  let mu := G * (Entity.mass other + mass)
  let f_vec := o_pos - pos
  let rot_unit := rot2 (-(Real.pi / 2)) (vnormalize f_vec)
  let v := Real.sqrt (mu / height)
  let v_vec := v • rot_unit
  let velocity := (Entity.motion other).velocity + v_vec
  { id := rngId, velocity := velocity, position := pos, color := color,
    size := size, mass := mass }

/-- The force-accumulation loop of `planet.rs` `Planet::tick`: iterates over
all of `w.entities`, skipping every entity whose id equals the planet's
own, and accumulates `(G * (e.mass + self.mass)) / r_sq * vec.normalize()`. -/
def Planet.dv (self : Planet) (w : List Entity) : Vec2 :=
  w.foldl
    (fun dv e =>
      if e.id = self.id then dv
      else
        dv + (G * (e.mass + self.mass) /
            normSq (e.motion.position - self.position)) •
          vnormalize (e.motion.position - self.position))
    0

/-- `Planet::tick` of `planet.rs`: velocity advances by `dv * dt`, position
advances by the pre-update `self.velocity * dt` (`dt` is
`Duration::as_secs_f64` of the supplied delta). -/
def Planet.tick (self : Planet) (w : List Entity) (dt : ℝ) : PhysicsFrame :=
  { velocity := self.velocity + dt • Planet.dv self w,
    position := self.position + dt • self.velocity }

/-- `Planet::set` of `planet.rs`. -/
def Planet.set (self : Planet) (f : PhysicsFrame) : Planet :=
  { self with position := f.position, velocity := f.velocity }

/-- `Star::tick` of `planet.rs`: the unchanged position with zero velocity,
whatever the world and the delta. -/
def Star.tick (self : Star) (_w : List Entity) (_dt : ℝ) : PhysicsFrame :=
  { velocity := (0, 0), position := self.position }

/-- `Star::set` of `planet.rs` is a no-op. -/
def Star.set (self : Star) (_f : PhysicsFrame) : Star := self

end Planets

namespace Main

/-- One update step of the `event.update` closure in `main.rs`. Phase 1
computes, in iteration order, every entity's frame with
`e.tick(l.iter().chain(r).collect(), elapsed)` — the `split_at` halves
chained back together are the whole entity list, in order, read from the
frozen pre-step world. Phase 2 then commits every frame into its owning
entity (`iter_mut().zip(frames)`). -/
def step (w : List Bodies.Entity) (dt : ℝ) : List Bodies.Entity :=
  let frames := w.map (fun e => e.tick w dt)
  List.zipWith Bodies.Entity.set w frames

/-- Iterated update steps, one per supplied delta. -/
def stepMany (w : List Bodies.Entity) (dts : List ℝ) : List Bodies.Entity :=
  dts.foldl step w

/-- `min_step` of `main.rs`:
`(Duration::from_secs(1) / time_scale).as_secs_f64()` where `time_scale` is
the event loop's initial updates-per-second setting. `Duration` division
keeps whole nanoseconds, hence the truncating natural division. -/
def min_step (ups : ℕ) : ℝ := ((1000000000 / ups : ℕ) : ℝ) / 1000000000

/-- The `event.update` closure of `main.rs`: the driver-supplied `args.dt`
is clamped from below to `min_step` before the step runs. -/
def update (w : List Bodies.Entity) (ups : ℕ) (dt : ℝ) : List Bodies.Entity :=
  let elapsed := if dt < min_step ups then min_step ups else dt
  step w elapsed

end Main

/-! Definitions written from the specification's own words, to be compared
with the definitions read off the source. -/

/-- The net acceleration of spec section 4.2, written as the spec writes it:
the sum over every other body `j` (exclusion by id equality) of
`G * (m_i + m_j) / |p_j - p_i|^2 * unit (p_j - p_i)`. -/
def specAccelSum (b : Bodies.Body) (others : List Bodies.Entity) : Vec2 :=
  ((others.filter (fun e => e.id != b.id)).map (fun e =>
    (Bodies.G * (b.mass + e.physics_data.mass) /
        normSq (e.physics_data.position - b.position)) •
      vnormalize (e.physics_data.position - b.position))).sum

/-- The semi-implicit (symplectic) Euler update of spec section 4.2:
`v' = v + a * dt` first, then `p' = p + v * dt` with the pre-update `v`.
Returns `(v', p')`. -/
def symplecticEuler (p v a : Vec2) (dt : ℝ) : Vec2 × Vec2 :=
  (v + dt • a, p + dt • v)

/-- The stable-orbit velocity of spec section 4.3, steps 3 to 7, for a child
already placed at `childPos`: `r_vec` points from the child to the parent,
`mu = G * (parent.mass + child.mass)`, `speed = sqrt (mu / |r_vec|)`, the
direction is `rotate (-pi/2) (unit r_vec)`, and the parent's velocity is
inherited as a vector summand. The gravitational constant is a parameter so
the formula can be compared against either source variant. -/
def specOrbitVelocity (Gc : ℝ) (parentPos parentVel : Vec2)
    (parentMass childMass : ℝ) (childPos : Vec2) : Vec2 :=
  let r_vec := parentPos - childPos
  let mu := Gc * (parentMass + childMass)
  let speed := Real.sqrt (mu / vnorm r_vec)
  let direction := rot2 (-(Real.pi / 2)) (vnormalize r_vec)
  parentVel + speed • direction

/-! Concrete sample data used to instantiate the theorems. -/

/-- Opaque white, a throwaway colour for sample bodies. -/
def cWhite : Color := (1, 1, 1, 1)

/-- A sample movable body at the origin with unit velocity along x. -/
def bodyA : Bodies.Body :=
  { velocity := (1, 0), position := (0, 0), color := cWhite, size := 1,
    mass := 1, parent_id := 0, name := "a", id := 0 }

/-- A second sample body, coincident with `bodyA` but with a distinct id. -/
def bodyB : Bodies.Body :=
  { velocity := (0, 0), position := (0, 0), color := cWhite, size := 1,
    mass := 1, parent_id := 0, name := "b", id := 1 }

/-- A sample movable body at rest. -/
def bZero : Bodies.Body :=
  { velocity := (0, 0), position := (3, 4), color := cWhite, size := 1,
    mass := 1, parent_id := 0, name := "z", id := 0 }

/-- A sample anchored star of the `bodies.rs` variant. -/
def sA : Bodies.Star :=
  { id := 0, name := "sun", velocity := (0, 0), position := (0, 0),
    color := cWhite, mass := 2, size := 1 }

/-- A sample star of the `planet.rs` variant. -/
def pStar : Planets.Star :=
  { position := (0, 0), color := cWhite, mass := 1000, size := 15 }

/-- The sample star as a `planet.rs` entity. -/
def pEnt : Planets.Entity := Planets.Entity.star pStar

/-- A world configuration with one star and two childless top-level planets,
fed to `World.new_from_json`. -/
def wp7 : Bodies.WorldParams :=
  { stars := [Bodies.BodyParams.mk 0 0 cWhite 15 1000 0 "sun" none],
    planets :=
      [Bodies.BodyParams.mk 0 0 cWhite 1 5 100 "p1" none,
       Bodies.BodyParams.mk 0 0 cWhite 1 7 200 "p2" none] }

/-! Helper lemmas. -/

/-- The force loop of `Body::tick`, started from an arbitrary accumulator,
equals the accumulator plus the spec's filtered sum. -/
lemma Bodies.Body.dv_foldl (b : Bodies.Body) :
    ∀ (l : List Bodies.Entity) (init : Vec2),
      l.foldl
        (fun dv e =>
          if e.id = b.id then dv
          else
            dv + (Bodies.G * (e.physics_data.mass + b.mass) /
                normSq (e.physics_data.position - b.position)) •
              vnormalize (e.physics_data.position - b.position))
        init
      = init + specAccelSum b l := by
  intro l
  induction l with
  | nil => intro init; simp [specAccelSum]
  | cons e rest ih =>
    intro init
    by_cases h : e.id = b.id
    · simp only [List.foldl_cons, h, if_pos rfl, ih, specAccelSum,
        List.filter_cons, bne_self_eq_false]
      simp [specAccelSum, h]
    · have hmm : Bodies.G * (e.physics_data.mass + b.mass) =
          Bodies.G * (b.mass + e.physics_data.mass) := by ring
      have hb : (e.id != b.id) = true := by simp [h]
      simp only [List.foldl_cons, if_neg h, ih, specAccelSum, List.filter_cons,
        hb, if_true, List.map_cons, List.sum_cons, hmm, ← add_assoc]

/-- `Body.dv` is the spec's filtered sum. -/
lemma Bodies.Body.dv_eq_spec (b : Bodies.Body) (l : List Bodies.Entity) :
    Bodies.Body.dv b l = specAccelSum b l := by
  have := Bodies.Body.dv_foldl b l 0
  simpa [Bodies.Body.dv] using this

/-- The spec's acceleration sum only depends on the multiset of bodies in
the view: permuting the view leaves it unchanged. -/
lemma specAccelSum_perm (b : Bodies.Body) {l₁ l₂ : List Bodies.Entity}
    (h : l₁.Perm l₂) : specAccelSum b l₁ = specAccelSum b l₂ :=
  List.Perm.sum_eq ((h.filter _).map _)

/-- A body's computed frame only depends on the multiset of bodies in the
view it is handed. -/
lemma Bodies.Entity.tick_perm (e : Bodies.Entity) {l₁ l₂ : List Bodies.Entity}
    (dt : ℝ) (h : l₁.Perm l₂) :
    Bodies.Entity.tick e l₁ dt = Bodies.Entity.tick e l₂ dt := by
  cases e with
  | star s => rfl
  | body b =>
    simp only [Bodies.Entity.tick, Bodies.Body.tick, Bodies.Body.dv_eq_spec,
      specAccelSum_perm b h]

/-- Zipping a list against a pointwise image of itself is a map. -/
lemma zipWith_map_self {α β γ : Type} (f : α → β → γ) (g : α → β) :
    ∀ l : List α, List.zipWith f l (l.map g) = l.map (fun a => f a (g a)) := by
  intro l
  induction l with
  | nil => rfl
  | cons a l ih => simp [List.zipWith, ih]

/-- The two-phase step, written as one map: every entity is committed with
the frame it computed from the frozen pre-step world. -/
lemma Main.step_eq_map (w : List Bodies.Entity) (dt : ℝ) :
    Main.step w dt = w.map (fun e => e.set (e.tick w dt)) := by
  simp only [Main.step]
  exact zipWith_map_self _ _ w

/-- A step on the empty world does nothing. -/
lemma Main.step_nil (dt : ℝ) : Main.step [] dt = [] := rfl

/-- A step leaves a lone star world unchanged. -/
lemma Main.step_single_star (s : Bodies.Star) (dt : ℝ) :
    Main.step [Bodies.Entity.star s] dt = [Bodies.Entity.star s] := rfl

/-- A lone movable body feels no force (it skips itself by id), keeps its
velocity, and drifts by `velocity * dt`. -/
lemma Main.step_single_body (b : Bodies.Body) (dt : ℝ) :
    Main.step [Bodies.Entity.body b] dt =
      [Bodies.Entity.body { b with position := b.position + dt • b.velocity }] := by
  simp [Main.step, Bodies.Entity.tick, Bodies.Body.tick, Bodies.Body.dv,
    Bodies.Entity.set, Bodies.Body.set, Bodies.Entity.id]

/-- One step maps a star entity at index `i` to itself. -/
lemma Main.step_get_star {w : List Bodies.Entity} {i : ℕ} {s : Bodies.Star}
    (dt : ℝ) (h : w.get? i = some (Bodies.Entity.star s)) :
    (Main.step w dt).get? i = some (Bodies.Entity.star s) := by
  rw [Main.step_eq_map, List.get?_eq_getElem?, List.getElem?_map,
    ← List.get?_eq_getElem?, h]
  rfl

/-- Any number of steps maps a star entity at index `i` to itself. -/
lemma Main.stepMany_get_star {s : Bodies.Star} :
    ∀ (dts : List ℝ) (w : List Bodies.Entity) (i : ℕ),
      w.get? i = some (Bodies.Entity.star s) →
      (Main.stepMany w dts).get? i = some (Bodies.Entity.star s) := by
  intro dts
  induction dts with
  | nil => intro w i h; exact h
  | cons dt dts ih =>
    intro w i h
    exact ih (Main.step w dt) i (Main.step_get_star dt h)

/-- Iterated steps on a lone movable body change only its position, and do
not even change that when the body is at rest. -/
lemma Main.stepMany_single_body :
    ∀ (dts : List ℝ) (b : Bodies.Body), ∃ q : Vec2,
      Main.stepMany [Bodies.Entity.body b] dts =
        [Bodies.Entity.body { b with position := q }] ∧
      (b.velocity = 0 → q = b.position) := by
  intro dts
  induction dts with
  | nil =>
    intro b
    exact ⟨b.position, rfl, fun _ => rfl⟩
  | cons dt dts ih =>
    intro b
    obtain ⟨q, hq, hz⟩ := ih { b with position := b.position + dt • b.velocity }
    refine ⟨q, ?_, ?_⟩
    · show Main.stepMany (Main.step [Bodies.Entity.body b] dt) dts = _
      rw [Main.step_single_body]
      exact hq
    · intro h
      rw [hz h, h]
      simp

/-! Claim theorems. -/

/-- C1. Permuting the order in which the bodies are iterated within one
integration step changes no body's computed frame, no body's post-commit
state, and turns the stepped world into the correspondingly permuted stepped
world: every tick reads the same frozen pre-step snapshot, and all frames
are committed only afterwards. -/
theorem step_order_independent (w₁ w₂ : List Bodies.Entity) (dt : ℝ)
    (h : w₁.Perm w₂) :
    (∀ e : Bodies.Entity, e.tick w₁ dt = e.tick w₂ dt) ∧
    (∀ e : Bodies.Entity, e.set (e.tick w₁ dt) = e.set (e.tick w₂ dt)) ∧
    (Main.step w₁ dt).Perm (Main.step w₂ dt) := by
  have htick : ∀ e : Bodies.Entity, e.tick w₁ dt = e.tick w₂ dt :=
    fun e => Bodies.Entity.tick_perm e dt h
  refine ⟨htick, fun e => by rw [htick e], ?_⟩
  rw [Main.step_eq_map, Main.step_eq_map]
  have hfun : (fun e : Bodies.Entity => e.set (e.tick w₂ dt)) =
      (fun e : Bodies.Entity => e.set (e.tick w₁ dt)) := by
    funext e
    rw [htick e]
  rw [hfun]
  exact h.map _

/-- C1 witness: a two-entity world and its transposition. -/
theorem step_order_independent_at :
    ([Bodies.Entity.star sA, Bodies.Entity.body bodyB].Perm
        [Bodies.Entity.body bodyB, Bodies.Entity.star sA]) ∧
    ((Main.step [Bodies.Entity.star sA, Bodies.Entity.body bodyB] 1).Perm
        (Main.step [Bodies.Entity.body bodyB, Bodies.Entity.star sA] 1)) := by
  have h : ([Bodies.Entity.star sA, Bodies.Entity.body bodyB].Perm
      [Bodies.Entity.body bodyB, Bodies.Entity.star sA]) :=
    List.Perm.swap (Bodies.Entity.body bodyB) (Bodies.Entity.star sA) []
  exact ⟨h, (step_order_independent _ _ 1 h).2.2⟩

/-- C2. One `Body::tick` advances the velocity by `dt` times exactly the
spec's acceleration sum — over every body of the view whose id differs from
the body's own (exclusion by id equality, whatever view it is given), with
the combined mass `m_i + m_j` and the inverse-square unit-vector form — and
the gravitational constant is `6.67430e-11`. -/
theorem body_tick_accel_spec :
    (∀ (b : Bodies.Body) (others : List Bodies.Entity) (dt : ℝ),
      Bodies.Body.tick b others dt =
        { velocity := b.velocity + dt • specAccelSum b others,
          position := b.position + dt • b.velocity }) ∧
    Bodies.G = 6.67430e-11 := by
  constructor
  · intro b others dt
    rw [Bodies.Body.tick, Bodies.Body.dv_eq_spec]
  · norm_num [Bodies.G]

/-- C3. Both orbiting-body tick implementations are the semi-implicit Euler
update of the spec: the velocity advances first with the newly accumulated
acceleration, the position advances with the pre-update velocity, for every
body, every view and every `dt`. -/
theorem tick_symplectic_euler_order :
    (∀ (b : Bodies.Body) (others : List Bodies.Entity) (dt : ℝ),
      Bodies.Body.tick b others dt =
        { velocity := (symplecticEuler b.position b.velocity
            (Bodies.Body.dv b others) dt).1,
          position := (symplecticEuler b.position b.velocity
            (Bodies.Body.dv b others) dt).2 }) ∧
    (∀ (p : Planets.Planet) (w : List Planets.Entity) (dt : ℝ),
      Planets.Planet.tick p w dt =
        { velocity := (symplecticEuler p.position p.velocity
            (Planets.Planet.dv p w) dt).1,
          position := (symplecticEuler p.position p.velocity
            (Planets.Planet.dv p w) dt).2 }) :=
  ⟨fun _ _ _ => rfl, fun _ _ _ => rfl⟩

/-- C4 (amended). For the `bodies.rs` stable-orbit constructor the claim
holds exactly: the child's velocity is the parent's velocity plus
`sqrt (G * (M + m) / |r_vec|)` times the quarter-turn of `unit r_vec`,
where `r_vec` points from the constructed child to the parent. -/
theorem body_orbit_velocity_spec (parent : Bodies.PhysicsData)
    (params : Bodies.BodyParams) (period : ℝ) :
    (Bodies.Body.new_stable_orbit parent params period).velocity =
      specOrbitVelocity Bodies.G parent.position parent.velocity parent.mass
        params.mass (Bodies.Body.new_stable_orbit parent params period).position :=
  rfl

/-- C8. An anchored body is a fixed reference frame: a star entity is
byte-identical after any sequence of steps with any deltas; every star the
program constructs has zero velocity, so its tick returns exactly its
current unchanged motion whatever view and delta it is given; committing
any frame into a star changes nothing; and the `planet.rs` star's tick is
literally its reported motion. -/
theorem star_state_invariant :
    (∀ (w : List Bodies.Entity) (dts : List ℝ) (i : ℕ) (s : Bodies.Star),
      w.get? i = some (Bodies.Entity.star s) →
      (Main.stepMany w dts).get? i = some (Bodies.Entity.star s)) ∧
    (∀ p : Bodies.BodyParams, (Bodies.Star.new_from_params p).velocity = 0) ∧
    (∀ (s : Bodies.Star) (others : List Bodies.Entity) (dt : ℝ),
      s.velocity = 0 →
      Bodies.Star.tick s others dt =
        { velocity := s.velocity, position := s.position }) ∧
    (∀ (s : Bodies.Star) (f : Bodies.PhysicsFrame), Bodies.Star.set s f = s) ∧
    (∀ (s : Planets.Star) (w : List Planets.Entity) (dt : ℝ),
      Planets.Star.tick s w dt =
        Planets.Entity.motion (Planets.Entity.star s)) := by
  refine ⟨?_, fun _ => rfl, ?_, fun _ _ => rfl, fun _ _ _ => rfl⟩
  · intro w dts i s h
    exact Main.stepMany_get_star dts w i h
  · intro s others dt h
    rw [Bodies.Star.tick, h]
    rfl

/-- C8 witness: a concrete one-star world stepped twice. -/
theorem star_state_invariant_at :
    ([Bodies.Entity.star sA].get? 0 = some (Bodies.Entity.star sA)) ∧
    ((Main.stepMany [Bodies.Entity.star sA] [1, 2]).get? 0 =
        some (Bodies.Entity.star sA)) ∧
    sA.velocity = 0 ∧
    Bodies.Star.tick sA [] 1 = { velocity := sA.velocity, position := sA.position } := by
  refine ⟨rfl, star_state_invariant.1 [Bodies.Entity.star sA] [1, 2] 0 sA rfl,
    rfl, star_state_invariant.2.2.1 sA [] 1 rfl⟩

/-- C9 (amended). An empty world and a lone-star world survive any sequence
of steps completely unchanged; a lone movable body keeps every field except
its position (in particular its velocity never changes, as no forces are
possible: it skips itself by id), and its position too is unchanged
provided its velocity is zero — a lone moving body, however, drifts. -/
theorem small_world_steps :
    (∀ dts : List ℝ, Main.stepMany [] dts = []) ∧
    (∀ (s : Bodies.Star) (dts : List ℝ),
      Main.stepMany [Bodies.Entity.star s] dts = [Bodies.Entity.star s]) ∧
    (∀ (b : Bodies.Body) (dts : List ℝ), ∃ q : Vec2,
      Main.stepMany [Bodies.Entity.body b] dts =
        [Bodies.Entity.body { b with position := q }]) ∧
    (∀ (b : Bodies.Body) (dts : List ℝ), b.velocity = 0 →
      Main.stepMany [Bodies.Entity.body b] dts = [Bodies.Entity.body b]) := by
  have hnil : ∀ dts : List ℝ, Main.stepMany [] dts = [] := by
    intro dts
    induction dts with
    | nil => rfl
    | cons dt dts ih => exact ih
  have hstar : ∀ (s : Bodies.Star) (dts : List ℝ),
      Main.stepMany [Bodies.Entity.star s] dts = [Bodies.Entity.star s] := by
    intro s dts
    induction dts with
    | nil => rfl
    | cons dt dts ih => exact ih
  refine ⟨hnil, hstar, ?_, ?_⟩
  · intro b dts
    obtain ⟨q, hq, _⟩ := Main.stepMany_single_body dts b
    exact ⟨q, hq⟩
  · intro b dts h
    obtain ⟨q, hq, hz⟩ := Main.stepMany_single_body dts b
    rw [hq, hz h]

/-- C9 witness: a body at rest at `(3, 4)` is unmoved by two steps. -/
theorem small_world_steps_at :
    bZero.velocity = 0 ∧
    Main.stepMany [Bodies.Entity.body bZero] [1, 2] = [Bodies.Entity.body bZero] :=
  ⟨rfl, small_world_steps.2.2.2 bZero [1, 2] rfl⟩

/-- C10. The update closure clamps the driver-supplied delta from below:
when `dt` is smaller than `min_step` (one second divided by the initial
updates-per-second setting, in whole nanoseconds), the step — and therefore
every tick in it — runs with `min_step`; otherwise it runs with `dt`
verbatim. -/
theorem update_clamps_dt (w : List Bodies.Entity) (ups : ℕ) (dt : ℝ) :
    (dt < Main.min_step ups →
      Main.update w ups dt = Main.step w (Main.min_step ups)) ∧
    (Main.min_step ups ≤ dt → Main.update w ups dt = Main.step w dt) := by
  constructor
  · intro h
    rw [Main.update, if_pos h]
  · intro h
    rw [Main.update, if_neg (not_lt.mpr h)]

/-- C10 witness: with the event loop's default 120 updates per second,
`min_step` is `8333333e-9` seconds; a smaller delta is replaced by it and a
larger one is kept. -/
theorem update_clamps_dt_at :
    (0 : ℝ) < Main.min_step 120 ∧
    Main.update [] 120 0 = Main.step [] (Main.min_step 120) ∧
    Main.min_step 120 ≤ 1 ∧
    Main.update [] 120 1 = Main.step [] 1 := by
  have h0 : (0 : ℝ) < Main.min_step 120 := by norm_num [Main.min_step]
  have h1 : Main.min_step 120 ≤ 1 := by norm_num [Main.min_step]
  exact ⟨h0, (update_clamps_dt [] 120 0).1 h0, h1, (update_clamps_dt [] 120 1).2 h1⟩

/-- C5 (code defect). At coincident positions `Body::tick` has no
minimum-separation floor: the `f64` evaluation normalises the zero vector
and divides by a zero `r_sq`, so the committed frame's velocity components
are `NaN` — tracked here by the checked force loop returning `none` for two
bodies with distinct ids at the same position. -/
theorem body_tick_nan_at_coincident :
    Bodies.Body.tickChecked bodyA [Bodies.Entity.body bodyB] 1 = none := by
  simp [Bodies.Body.tickChecked, Bodies.Body.dvChecked, Bodies.Entity.physics_data,
    Bodies.Body.physics_data, Bodies.Entity.id, bodyA, bodyB]

/-- C6 (code defect). Two calls of `Planet::new_stable_orbit` with identical
parent motion, parent mass, child mass, height and an explicitly supplied
phase agree on position and velocity, but their ids are the two distinct
`thread_rng` draws: the output is not bit-identical. -/
theorem planet_orbit_rng_id :
    (Planets.Planet.new_stable_orbit pEnt 4 0 600 1 cWhite 7).position =
      (Planets.Planet.new_stable_orbit pEnt 4 0 600 1 cWhite 8).position ∧
    (Planets.Planet.new_stable_orbit pEnt 4 0 600 1 cWhite 7).velocity =
      (Planets.Planet.new_stable_orbit pEnt 4 0 600 1 cWhite 8).velocity ∧
    (Planets.Planet.new_stable_orbit pEnt 4 0 600 1 cWhite 7).id ≠
      (Planets.Planet.new_stable_orbit pEnt 4 0 600 1 cWhite 8).id :=
  ⟨rfl, rfl, by decide⟩

/-- C7 (code defect). Building a world from one star and two childless
top-level planets assigns the ids `[0, 1, 1]` whatever the phase draws: the
planet-id counter `offset` is captured by copy in the inner `move` closure,
so both planets read `offset = stars.len()` and share one id. -/
theorem new_from_json_duplicate_ids :
    ∀ rng : ℕ → ℕ → ℝ,
      (Bodies.World.new_from_json wp7 rng).map
          (fun es => es.map Bodies.Entity.id) = some [0, 1, 1] ∧
      ¬ ([0, 1, 1] : List ℕ).Nodup := by
  intro rng
  exact ⟨rfl, by decide⟩

/-- C9 counterexample. A world holding exactly one moving body steps without
error, but the body's position changes: from the origin to `(1, 0)` after a
single step with `dt = 1`, since the position advances by `velocity * dt`
even though no force acts. -/
theorem single_body_position_drifts :
    Main.stepMany [Bodies.Entity.body bodyA] [1] =
      [Bodies.Entity.body { bodyA with position := ((1 : ℝ), (0 : ℝ)) }] ∧
    bodyA.position = ((0 : ℝ), (0 : ℝ)) ∧
    (((0 : ℝ), (0 : ℝ)) : Vec2) ≠ (((1 : ℝ), (0 : ℝ)) : Vec2) := by
  refine ⟨?_, rfl, ?_⟩
  · show Main.step [Bodies.Entity.body bodyA] 1 = _
    rw [Main.step_single_body]
    norm_num [bodyA]
  · intro h
    have h1 := congrArg Prod.fst h
    norm_num at h1

/-- C4 counterexample. For the `planet.rs` constructor the claim's velocity
formula fails: with the sample star as parent, height `4`, phase `0` and
child mass `600`, the child sits at `(4, 2)` — at distance `sqrt 20` from
the parent — while its speed is computed from the height `4`, so its
velocity strictly exceeds (componentwise, on `y`) the claimed
`sqrt (mu / |r_vec|)` value. -/
theorem planet_orbit_speed_deviates :
    (Planets.Planet.new_stable_orbit pEnt 4 0 600 1 cWhite 0).position =
      ((4 : ℝ), (2 : ℝ)) ∧
    (specOrbitVelocity Planets.G (0, 0) (0, 0) 1000 600 ((4 : ℝ), (2 : ℝ))).2 <
      (Planets.Planet.new_stable_orbit pEnt 4 0 600 1 cWhite 0).velocity.2 := by
  have h4 : (4 : ℝ) < Real.sqrt 20 := by
    rw [show (4 : ℝ) = Real.sqrt 16 by
      rw [show (16 : ℝ) = 4 ^ 2 by norm_num, Real.sqrt_sq (by norm_num)]]
    exact Real.sqrt_lt_sqrt (by norm_num) (by norm_num)
  constructor
  · simp [Planets.Planet.new_stable_orbit, pEnt, pStar, Planets.Entity.motion,
      rot2, mul_zero, Real.cos_zero, Real.sin_zero, Prod.mk_add_mk]
    norm_num
  · simp [Planets.Planet.new_stable_orbit, specOrbitVelocity, pEnt, pStar,
      Planets.Entity.motion, Planets.Entity.mass, Planets.G, rot2, vnormalize,
      vnorm, normSq, mul_zero, Real.cos_zero, Real.sin_zero, Real.cos_neg,
      Real.sin_neg, Real.cos_pi_div_two, Real.sin_pi_div_two, Prod.mk_add_mk,
      Prod.mk_sub_mk, Prod.smul_mk, smul_eq_mul]
    norm_num
    have h8000 : (0 : ℝ) < Real.sqrt 8000 := Real.sqrt_pos.mpr (by norm_num)
    have hs4 : Real.sqrt 4 < Real.sqrt (Real.sqrt 20) :=
      Real.sqrt_lt_sqrt (by norm_num) h4
    have h44 : (0 : ℝ) < Real.sqrt 4 := Real.sqrt_pos.mpr (by norm_num)
    have hs20 : (0 : ℝ) < Real.sqrt (Real.sqrt 20) := lt_trans h44 hs4
    exact (div_lt_div_iff_of_pos_left h8000 hs20 h44).mpr hs4
